import Mathlib

/-!
Verification model of the AcademiaTalkFront client.

The client keeps two persistent localStorage entries (the string flag
under key isLoggedIn and the serialized user record under key user),
talks to a remote service via fetch, and reacts to each classified
response by updating that cache, showing messages, and navigating.

Each handler from the source (checkAuthentication, handleLogout,
handleLogin, handleRegister, handleCreatePost, loadProfile,
checkLoginStatus / verifySession) is embedded as a pure function from
the cache state and the remote call outcome to a result record listing
the cache afterwards, the messages shown, the navigations requested and
the number of network calls issued.  A remote outcome is either an
exception (network failure or an unparseable body, which response.json
turns into a thrown error caught by the surrounding try/catch) or a
parsed body together with the HTTP status code.
-/

namespace AcademiaTalk

/-- A user record as returned by the backend (`data` of profile/login
responses) and cached under the `user` key. -/
structure UserRecord where
  user_id : String
  name : String
  email : String
  created_at : String
deriving DecidableEq, Repr

/-- The two persistent localStorage entries the client maintains:
`getItem` returns `none` for an absent key. The flag is stored as the
string value written by `localStorage.setItem` (the code compares it
against the literal string value true). The user entry holds the
deserialized record. -/
structure Cache where
  isLoggedIn : Option String
  user : Option UserRecord
deriving DecidableEq, Repr

/-- The cache after both `localStorage.removeItem` calls. -/
def Cache.cleared : Cache := { isLoggedIn := none, user := none }

/-- Outcome of one `fetch` + `response.json()` round trip: either a
parsed body with its HTTP status, or an exception (network unreachable
or body that fails to parse) caught by the calling try/catch. -/
inductive FetchResult (β : Type) where
  | ok (status : Nat) (body : β)
  | exn
deriving DecidableEq, Repr

/-
The exception constructor covers both a failed fetch and a body that
response.json cannot parse; each handler catches it in its try/catch.
-/

/-- A message shown through `showMessage`: text and type. -/
abbrev Msg := String × String

/-- Body shape of profile responses: `{success, message?, data}`. -/
structure ProfileBody where
  success : Bool
  message : String
  data : UserRecord
deriving DecidableEq, Repr

/-- Body shape of login responses: `{success, message, data}`. -/
structure LoginBody where
  success : Bool
  message : String
  data : UserRecord
deriving DecidableEq, Repr

/-- Body shape of register / logout / create-post responses:
`{success, message}`. -/
structure SimpleBody where
  success : Bool
  message : String
deriving DecidableEq, Repr

/-- JavaScript whitespace class (the regex class backslash-s and the
characters removed by `String.prototype.trim`). -/
def jsWhitespace (ch : Char) : Bool :=
  let n := ch.toNat
  n = 0x20 || n = 0x9 || n = 0xa || n = 0xb || n = 0xc || n = 0xd ||
  n = 0xa0 || n = 0x1680 || (0x2000 ≤ n && n ≤ 0x200a) ||
  n = 0x2028 || n = 0x2029 || n = 0x202f || n = 0x205f || n = 0x3000 ||
  n = 0xfeff

/-- Embedding of `String.prototype.trim`: strip leading and trailing whitespace. -/
def jsTrim (s : String) : String :=
  ⟨((s.data.dropWhile jsWhitespace).reverse.dropWhile jsWhitespace).reverse⟩

/-- A character matched by the regex class excluding whitespace and the
at sign. -/
def isEmailChar (ch : Char) : Bool :=
  !jsWhitespace ch && ch ≠ '@'

/-- The part before the at sign: one or more non-space non-at chars. -/
def emailLocalOk (l : List Char) : Bool :=
  !l.isEmpty && l.all isEmailChar

/-- The part after the at sign: it must factor as nonempty, a dot,
nonempty over non-space non-at characters, i.e. all characters are
email characters and some dot occurs strictly inside. -/
def emailDomainOk (l : List Char) : Bool :=
  l.all isEmailChar && ((l.drop 1).dropLast.contains '.')

/-- Splitting of a character list at every at sign; the result has one
more piece than the number of at signs in the input. -/
def splitAtSign (l : List Char) : List (List Char) :=
  match l with
  | [] => [[]]
  | ch :: rest =>
    match splitAtSign rest with
    | [] => if ch = '@' then [[], []] else [[ch]]
    | h :: t => if ch = '@' then [] :: h :: t else (ch :: h) :: t

/-- Embedding of `isValidEmail` from the auth module: the anchored
regex matches exactly the strings that factor as a local part, exactly
one at sign, and a domain part. -/
def isValidEmail (email : String) : Bool :=
  match splitAtSign email.data with
  | [a, b] => emailLocalOk a && emailDomainOk b
  | _ => false

/-- Rejection test on the post title in `handleCreatePost`. -/
def titleRejected (t : String) : Bool :=
  t.length < 5 || t.length > 200

/-- Rejection test on the post content in `handleCreatePost`. -/
def contentRejected (t : String) : Bool :=
  t.length < 10 || t.length > 5000

/-- Rejection test on the registration name in `handleRegister`. -/
def nameRejected (t : String) : Bool :=
  t.length < 3 || t.length > 100

/-- Rejection test on the registration email in `handleRegister`. -/
def regEmailRejected (t : String) : Bool :=
  !isValidEmail t || t.length > 100

/-- Rejection test on the registration password in `handleRegister`. -/
def passwordRejected (p : String) : Bool :=
  p.length < 6

/-- Observable outcome of one run of a page guard
(`checkAuthentication`): resulting cache, navigations requested,
messages shown, number of profile fetches issued, and the boolean the
function returns. -/
structure GuardResult where
  cache : Cache
  navs : List String
  msgs : List Msg
  fetchCalls : Nat
  authorized : Bool
deriving DecidableEq, Repr

/-- Embedding of `checkAuthentication` of the forum module: if the local flag is not
the string true, redirect to index.html and return false; otherwise
fetch the profile; on a parsed body with success false clear both cache
entries and redirect; on success return true; on an exception show an
error message and return false. -/
def forumCheckAuthentication (c : Cache) (resp : FetchResult ProfileBody) :
    GuardResult :=
  if c.isLoggedIn ≠ some "true" then
    { cache := c, navs := ["index.html"], msgs := [], fetchCalls := 0,
      authorized := false }
  else
    match resp with
    | .ok _ body =>
      if !body.success then
        { cache := Cache.cleared, navs := ["index.html"], msgs := [],
          fetchCalls := 1, authorized := false }
      else
        { cache := c, navs := [], msgs := [], fetchCalls := 1,
          authorized := true }
    | .exn =>
      { cache := c, navs := [],
        msgs := [("Failed to verify authentication", "error")],
        fetchCalls := 1, authorized := false }

/-- Embedding of `checkAuthentication` of the profile module: purely local — if the
flag is not the string true, redirect and return false, else return
true.  No network call is made. -/
def profileCheckAuthentication (c : Cache) : GuardResult :=
  if c.isLoggedIn ≠ some "true" then
    { cache := c, navs := ["index.html"], msgs := [], fetchCalls := 0,
      authorized := false }
  else
    { cache := c, navs := [], msgs := [], fetchCalls := 0,
      authorized := true }

/-- Embedding of `handleLogout` of the forum module: try to POST the logout call and
parse the body; in both the try branch (any parsed body under any
status) and the catch branch (exception), both cache entries are
removed and a redirect to index.html is requested.  Returns the cache
afterwards and the navigations requested. -/
def handleLogout (_c : Cache) (resp : FetchResult SimpleBody) :
    Cache × List String :=
  match resp with
  | .ok _ _ => (Cache.cleared, ["index.html"])
  | .exn => (Cache.cleared, ["index.html"])

/-- Embedding of `handleLogout` of the profile module: same shape, except the body
is never parsed (the exception case covers only the network failure). -/
def profileHandleLogout (_c : Cache) (resp : FetchResult SimpleBody) :
    Cache × List String :=
  match resp with
  | .ok _ _ => (Cache.cleared, ["index.html"])
  | .exn => (Cache.cleared, ["index.html"])

/-- Observable outcome of `handleLogin`. `navDelayed` records that the
navigation was scheduled through setTimeout rather than immediate. -/
structure LoginResult where
  cache : Cache
  navs : List String
  msgs : List Msg
  fetchCalls : Nat
  navDelayed : Bool
deriving DecidableEq, Repr

/-- Embedding of `handleLogin` of the auth module: trims the email, validates email
syntax and non-empty password locally (returning before any fetch on
failure); on a body with success true stores the returned record under
`user` and the string true under `isLoggedIn`, shows the success
message and schedules navigation to forum.html; on success false shows
the message; on an exception shows a connectivity error.  In the three
non-success outcomes the cache is untouched. -/
def handleLogin (c : Cache) (emailRaw password : String)
    (resp : FetchResult LoginBody) : LoginResult :=
  let email := jsTrim emailRaw
  if !isValidEmail email then
    { cache := c, navs := [],
      msgs := [("Please enter a valid email address", "error")],
      fetchCalls := 0, navDelayed := false }
  else if password.isEmpty then
    { cache := c, navs := [], msgs := [("Password is required", "error")],
      fetchCalls := 0, navDelayed := false }
  else
    match resp with
    | .ok _ body =>
      if body.success then
        { cache := { isLoggedIn := some "true", user := some body.data },
          navs := ["forum.html"],
          msgs := [(body.message ++ " Redirecting...", "success")],
          fetchCalls := 1, navDelayed := true }
      else
        { cache := c, navs := [], msgs := [(body.message, "error")],
          fetchCalls := 1, navDelayed := false }
    | .exn =>
      { cache := c, navs := [],
        msgs := [("Failed to connect to server. Please try again later.",
                  "error")],
        fetchCalls := 1, navDelayed := false }

/-- Observable outcome of `handleRegister`. -/
structure RegisterResult where
  cache : Cache
  msgs : List Msg
  fetchCalls : Nat
  formCleared : Bool
deriving DecidableEq, Repr

/-- Embedding of `handleRegister` of the auth module: trims name and email, checks
name length, email syntax and length, and password length locally
(returning before any fetch on failure); on a body with success true
shows the success message and resets the registration form; otherwise
shows the server message or a connectivity error.  No branch touches
the cache. -/
def handleRegister (c : Cache) (nameRaw emailRaw password : String)
    (resp : FetchResult SimpleBody) : RegisterResult :=
  let name := jsTrim nameRaw
  let email := jsTrim emailRaw
  if nameRejected name then
    { cache := c,
      msgs := [("Name must be between 3 and 100 characters", "error")],
      fetchCalls := 0, formCleared := false }
  else if regEmailRejected email then
    { cache := c,
      msgs := [("Please enter a valid email address", "error")],
      fetchCalls := 0, formCleared := false }
  else if passwordRejected password then
    { cache := c,
      msgs := [("Password must be at least 6 characters long", "error")],
      fetchCalls := 0, formCleared := false }
  else
    match resp with
    | .ok _ body =>
      if body.success then
        { cache := c,
          msgs := [(body.message ++ " Please login to continue.",
                    "success")],
          fetchCalls := 1, formCleared := true }
      else
        { cache := c, msgs := [(body.message, "error")], fetchCalls := 1,
          formCleared := false }
    | .exn =>
      { cache := c,
        msgs := [("Failed to connect to server. Please try again later.",
                  "error")],
        fetchCalls := 1, formCleared := false }

/-- Observable outcome of `handleCreatePost`.  `clearDelayed` records
that the cache clear and the navigation were scheduled through
setTimeout (the session-expired path); `cache` and `navs` are the state
after any scheduled action has run. -/
structure CreatePostResult where
  cache : Cache
  navs : List String
  msgs : List Msg
  fetchCalls : Nat
  formCleared : Bool
  postsReloaded : Bool
  clearDelayed : Bool
deriving DecidableEq, Repr

/-- Embedding of `handleCreatePost` of the forum module: trims title and content,
validates their lengths locally (returning before any fetch on
failure); on a body with success true shows the message, resets the
form and reloads the post list; on success false with HTTP status 401
shows the session-expired message and after a fixed delay removes both
cache entries and redirects to index.html; on success false otherwise
shows the server message; on an exception shows a retry message. -/
def handleCreatePost (c : Cache) (titleRaw contentRaw : String)
    (resp : FetchResult SimpleBody) : CreatePostResult :=
  let title := jsTrim titleRaw
  let content := jsTrim contentRaw
  if titleRejected title then
    { cache := c, navs := [],
      msgs := [("Title must be between 5 and 200 characters", "error")],
      fetchCalls := 0, formCleared := false, postsReloaded := false,
      clearDelayed := false }
  else if contentRejected content then
    { cache := c, navs := [],
      msgs := [("Content must be between 10 and 5000 characters",
                "error")],
      fetchCalls := 0, formCleared := false, postsReloaded := false,
      clearDelayed := false }
  else
    match resp with
    | .ok status body =>
      if body.success then
        { cache := c, navs := [], msgs := [(body.message, "success")],
          fetchCalls := 1, formCleared := true, postsReloaded := true,
          clearDelayed := false }
      else if status = 401 then
        { cache := Cache.cleared, navs := ["index.html"],
          msgs := [("Session expired. Please login again.", "error")],
          fetchCalls := 1, formCleared := false, postsReloaded := false,
          clearDelayed := true }
      else
        { cache := c, navs := [], msgs := [(body.message, "error")],
          fetchCalls := 1, formCleared := false, postsReloaded := false,
          clearDelayed := false }
    | .exn =>
      { cache := c, navs := [],
        msgs := [("Failed to create post. Please try again.", "error")],
        fetchCalls := 1, formCleared := false, postsReloaded := false,
        clearDelayed := false }

/-- Observable outcome of `loadProfile`. -/
structure LoadProfileResult where
  cache : Cache
  navs : List String
  msgs : List Msg
  renderedProfile : Option UserRecord
  clearDelayed : Bool
deriving DecidableEq, Repr

/-- Embedding of `loadProfile` of the profile module: fetches the profile; on a body
with success true renders the record and rewrites the `user` cache
entry with it; on success false with HTTP status 401 shows the
session-expired message and after a fixed delay removes both cache
entries and redirects; on success false otherwise shows the server
message; on an exception shows an error.  Only the success branch
writes the cache. -/
def loadProfile (c : Cache) (resp : FetchResult ProfileBody) :
    LoadProfileResult :=
  match resp with
  | .ok status body =>
    if body.success then
      { cache := { c with user := some body.data }, navs := [],
        msgs := [], renderedProfile := some body.data,
        clearDelayed := false }
    else if status = 401 then
      { cache := Cache.cleared, navs := ["index.html"],
        msgs := [("Session expired. Please login again.", "error")],
        renderedProfile := none, clearDelayed := true }
    else
      { cache := c, navs := [], msgs := [(body.message, "error")],
        renderedProfile := none, clearDelayed := false }
  | .exn =>
    { cache := c, navs := [],
      msgs := [("Failed to load profile information", "error")],
      renderedProfile := none, clearDelayed := false }

/-- Observable outcome of the entry-page session check
(`checkLoginStatus` / `verifySession`). -/
structure EntryPageResult where
  cache : Cache
  navs : List String
  msgs : List Msg
  fetchCalls : Nat
deriving DecidableEq, Repr

/-- Embedding of `verifySession` of the auth module: fetches the profile; on a body
with success true redirects to forum.html; on success false removes
both cache entries without navigating; on an exception does nothing
visible (the comment in the source says not to show an error and stay
on the login page). -/
def verifySession (c : Cache) (resp : FetchResult ProfileBody) :
    EntryPageResult :=
  match resp with
  | .ok _ body =>
    if body.success then
      { cache := c, navs := ["forum.html"], msgs := [], fetchCalls := 1 }
    else
      { cache := Cache.cleared, navs := [], msgs := [], fetchCalls := 1 }
  | .exn =>
    { cache := c, navs := [], msgs := [], fetchCalls := 1 }

/-- Embedding of `checkLoginStatus` of the auth module: only when the local flag is
the string true does it run `verifySession`; otherwise nothing happens
and no call is issued. -/
def checkLoginStatus (c : Cache) (resp : FetchResult ProfileBody) :
    EntryPageResult :=
  if c.isLoggedIn = some "true" then
    verifySession c resp
  else
    { cache := c, navs := [], msgs := [], fetchCalls := 0 }

/-- The response taxonomy of the spec, as realized by the shared
branch structure of `handleCreatePost` and `loadProfile`: a parsed body
with success true is a success; a parsed body with success false is the
session-invalid path exactly when the HTTP status is 401 and a domain
error otherwise; an exception is a transport failure. -/
inductive Classification where
  | ok
  | domainError
  | sessionInvalid
  | transportFailure
deriving DecidableEq, Repr

/-- Classification of a session-requiring response, mirroring the
branch order of the source: the body success flag is tested first, and
the 401 status test is reached only inside the failure branch. -/
def classifyResponse {β : Type} (success : β → Bool)
    (resp : FetchResult β) : Classification :=
  match resp with
  | .ok status body =>
    if success body then .ok
    else if status = 401 then .sessionInvalid
    else .domainError
  | .exn => .transportFailure

/-- C3: whatever the outcome of the remote logout call (parsed body of
any status, or exception), both logout handlers remove the two cache
entries and request navigation to index.html; running the forum
handler a second time on the already-cleared cache again ends with the
cleared cache and a navigation request, and the model is total on that
input (removal of an absent key does not throw). -/
theorem c3_logout_unconditional_idempotent (c : Cache)
    (r1 r2 : FetchResult SimpleBody) :
    handleLogout c r1 = (Cache.cleared, ["index.html"]) ∧
    profileHandleLogout c r1 = (Cache.cleared, ["index.html"]) ∧
    handleLogout (handleLogout c r1).1 r2 =
      (Cache.cleared, ["index.html"]) := by
  cases r1 <;> cases r2 <;>
    simp [handleLogout, profileHandleLogout]

/-- C4: with locally valid credentials (well-formed trimmed email,
non-empty password), a login whose parsed body reports success leaves
the cache holding the flag string true and the returned record, while
a body reporting failure or a transport exception leaves the cache
exactly as it was. -/
theorem c4_login_cache_effect (c : Cache) (e p : String)
    (he : isValidEmail (jsTrim e) = true) (hp : p.isEmpty = false) :
    (∀ (st : Nat) (b : LoginBody), b.success = true →
      (handleLogin c e p (.ok st b)).cache =
        { isLoggedIn := some "true", user := some b.data }) ∧
    (∀ (st : Nat) (b : LoginBody), b.success = false →
      (handleLogin c e p (.ok st b)).cache = c) ∧
    (handleLogin c e p .exn).cache = c := by
  refine ⟨?_, ?_, ?_⟩
  · intro st b hb
    simp [handleLogin, he, hp, hb]
  · intro st b hb
    simp [handleLogin, he, hp, hb]
  · simp [handleLogin, he, hp]

/-- Witness for C4 at a concrete run: a successful login from an empty
cache stores the flag and the returned record, and a failed login
leaves the empty cache empty. -/
theorem c4_login_cache_effect_witness :
    (handleLogin ⟨none, none⟩ "a@b.c" "pw"
        (.ok 200 ⟨true, "Login successful.", ⟨"7", "Ada", "a@b.c", "2024-01-01"⟩⟩)).cache =
      { isLoggedIn := some "true",
        user := some ⟨"7", "Ada", "a@b.c", "2024-01-01"⟩ } ∧
    (handleLogin ⟨none, none⟩ "a@b.c" "pw"
        (.ok 200 ⟨false, "Invalid credentials", ⟨"7", "Ada", "a@b.c", "2024-01-01"⟩⟩)).cache =
      ⟨none, none⟩ := by
  have h := c4_login_cache_effect ⟨none, none⟩ "a@b.c" "pw"
      (by decide) (by decide)
  exact ⟨h.1 200 _ rfl, h.2.1 200 _ rfl⟩

/-- C5: the four local validation tests accept exactly the stated
length ranges (title 5 to 200, content 10 to 5000, name 3 to 100,
password at least 6), and whenever a local validation rejects, the
create-post and register handlers issue no network call and show one
local error message. -/
theorem c5_local_validation :
    (∀ t : String, titleRejected t = false ↔ 5 ≤ t.length ∧ t.length ≤ 200) ∧
    (∀ t : String,
      contentRejected t = false ↔ 10 ≤ t.length ∧ t.length ≤ 5000) ∧
    (∀ t : String, nameRejected t = false ↔ 3 ≤ t.length ∧ t.length ≤ 100) ∧
    (∀ p : String, passwordRejected p = false ↔ 6 ≤ p.length) ∧
    (∀ (c : Cache) (t cont : String) (r : FetchResult SimpleBody),
      titleRejected (jsTrim t) = true ∨ contentRejected (jsTrim cont) = true →
      (handleCreatePost c t cont r).fetchCalls = 0 ∧
      (handleCreatePost c t cont r).msgs.length = 1 ∧
      (handleCreatePost c t cont r).msgs.map Prod.snd = ["error"]) ∧
    (∀ (c : Cache) (n e p : String) (r : FetchResult SimpleBody),
      nameRejected (jsTrim n) = true ∨ regEmailRejected (jsTrim e) = true ∨
        passwordRejected p = true →
      (handleRegister c n e p r).fetchCalls = 0 ∧
      (handleRegister c n e p r).msgs.map Prod.snd = ["error"]) := by
  refine ⟨?_, ?_, ?_, ?_, ?_, ?_⟩
  · intro t
    simp only [titleRejected, Bool.or_eq_false_iff, decide_eq_false_iff_not]
    omega
  · intro t
    simp only [contentRejected, Bool.or_eq_false_iff, decide_eq_false_iff_not]
    omega
  · intro t
    simp only [nameRejected, Bool.or_eq_false_iff, decide_eq_false_iff_not]
    omega
  · intro p
    simp only [passwordRejected, decide_eq_false_iff_not]
    omega
  · intro c t cont r h
    cases ht : titleRejected (jsTrim t) with
    | true => simp [handleCreatePost, ht]
    | false =>
      cases hc : contentRejected (jsTrim cont) with
      | true => simp [handleCreatePost, ht, hc]
      | false => rcases h with h | h <;> simp_all
  · intro c n e p r h
    cases hn : nameRejected (jsTrim n) with
    | true => simp [handleRegister, hn]
    | false =>
      cases he : regEmailRejected (jsTrim e) with
      | true => simp [handleRegister, hn, he]
      | false =>
        cases hp : passwordRejected p with
        | true => simp [handleRegister, hn, he, hp]
        | false => rcases h with h | h | h <;> simp_all

/-- Witness for C5 at the scenario input: a create-post attempt with
the two-character title Hi issues no network call and shows one local
error message. -/
theorem c5_local_validation_witness :
    (handleCreatePost ⟨none, none⟩ "Hi" "whatever this is long enough"
        FetchResult.exn).fetchCalls = 0 ∧
    (handleCreatePost ⟨none, none⟩ "Hi" "whatever this is long enough"
        FetchResult.exn).msgs.length = 1 := by
  have h := c5_local_validation.2.2.2.2.1 ⟨none, none⟩ "Hi"
      "whatever this is long enough" FetchResult.exn (Or.inl (by decide))
  exact ⟨h.1, h.2.1⟩

/-- C6: a registration whose parsed body reports success notifies
success and clears the registration form but leaves the session cache
exactly as it was: neither the logged-in flag nor the user record is
written. -/
theorem c6_register_no_session_write (c : Cache) (n e p : String)
    (st : Nat) (b : SimpleBody) (hs : b.success = true)
    (hn : nameRejected (jsTrim n) = false)
    (he : regEmailRejected (jsTrim e) = false)
    (hp : passwordRejected p = false) :
    (handleRegister c n e p (.ok st b)).formCleared = true ∧
    (handleRegister c n e p (.ok st b)).msgs =
      [(b.message ++ " Please login to continue.", "success")] ∧
    (handleRegister c n e p (.ok st b)).cache = c := by
  simp [handleRegister, hn, he, hp, hs]

/-- Witness for C6 at a concrete run: a successful registration from
an empty cache leaves the cache empty and clears the form. -/
theorem c6_register_no_session_write_witness :
    (handleRegister ⟨none, none⟩ "Ada" "a@b.c" "secret"
        (.ok 200 ⟨true, "Registered."⟩)).formCleared = true ∧
    (handleRegister ⟨none, none⟩ "Ada" "a@b.c" "secret"
        (.ok 200 ⟨true, "Registered."⟩)).cache = ⟨none, none⟩ := by
  have h := c6_register_no_session_write ⟨none, none⟩ "Ada" "a@b.c"
      "secret" 200 ⟨true, "Registered."⟩ rfl (by decide) (by decide)
      (by decide)
  exact ⟨h.1, h.2.2⟩

/-- C7: when the guard of the forum page has a locally set flag and
its confirmation call ends in an exception (network failure or
unparseable body), it shows a recoverable error message, leaves both
cache entries unchanged, requests no navigation, and returns false. -/
theorem c7_guard_transport_failure (c : Cache)
    (h : c.isLoggedIn = some "true") :
    forumCheckAuthentication c .exn =
      { cache := c, navs := [],
        msgs := [("Failed to verify authentication", "error")],
        fetchCalls := 1, authorized := false } := by
  simp [forumCheckAuthentication, h]

/-- Witness for C7 at a concrete cache. -/
theorem c7_guard_transport_failure_witness :
    forumCheckAuthentication ⟨some "true", none⟩ FetchResult.exn =
      { cache := ⟨some "true", none⟩, navs := [],
        msgs := [("Failed to verify authentication", "error")],
        fetchCalls := 1, authorized := false } :=
  c7_guard_transport_failure ⟨some "true", none⟩ rfl

/-- C9: with locally valid title and content, a create-post call whose
parsed body reports success shows the message, clears the form and
reloads the post list without touching the cache or navigating (no
local insertion of the post), and a call answered with a failure body
under HTTP status 401 shows the session-expired message and, through
the scheduled delayed action, clears both cache entries and requests
navigation to index.html. -/
theorem c9_create_post_outcomes (c : Cache) (t cont : String) (st : Nat)
    (b : SimpleBody) (ht : titleRejected (jsTrim t) = false)
    (hc : contentRejected (jsTrim cont) = false) :
    (b.success = true →
      handleCreatePost c t cont (.ok st b) =
        { cache := c, navs := [], msgs := [(b.message, "success")],
          fetchCalls := 1, formCleared := true, postsReloaded := true,
          clearDelayed := false }) ∧
    (b.success = false → st = 401 →
      handleCreatePost c t cont (.ok st b) =
        { cache := Cache.cleared, navs := ["index.html"],
          msgs := [("Session expired. Please login again.", "error")],
          fetchCalls := 1, formCleared := false, postsReloaded := false,
          clearDelayed := true }) := by
  constructor
  · intro hb
    simp [handleCreatePost, ht, hc, hb]
  · intro hb hst
    simp [handleCreatePost, ht, hc, hb, hst]

/-- Witness for C9 at concrete runs of both branches. -/
theorem c9_create_post_outcomes_witness :
    (handleCreatePost ⟨some "true", none⟩ "Hello" "long enough content"
        (.ok 200 ⟨true, "Post created"⟩)).postsReloaded = true ∧
    (handleCreatePost ⟨some "true", none⟩ "Hello" "long enough content"
        (.ok 401 ⟨false, "Unauthorized"⟩)).cache = Cache.cleared := by
  have h := c9_create_post_outcomes ⟨some "true", none⟩ "Hello"
      "long enough content" 200 ⟨true, "Post created"⟩ (by decide)
      (by decide)
  have h2 := c9_create_post_outcomes ⟨some "true", none⟩ "Hello"
      "long enough content" 401 ⟨false, "Unauthorized"⟩ (by decide)
      (by decide)
  constructor
  · rw [h.1 rfl]
  · rw [h2.2 rfl rfl]

/-- C10: on the entry page, when the cached flag is not the string
true no verification call is issued and nothing changes; when it is,
the verification call is issued, and a success body requests
navigation to forum.html, a failure body clears both cache entries
without navigating or showing a message, and an exception changes
nothing and shows nothing. -/
theorem c10_entry_page_check (c : Cache) (resp : FetchResult ProfileBody) :
    (c.isLoggedIn ≠ some "true" →
      checkLoginStatus c resp =
        { cache := c, navs := [], msgs := [], fetchCalls := 0 }) ∧
    (c.isLoggedIn = some "true" →
      (∀ (st : Nat) (b : ProfileBody), b.success = true →
        checkLoginStatus c (.ok st b) =
          { cache := c, navs := ["forum.html"], msgs := [],
            fetchCalls := 1 }) ∧
      (∀ (st : Nat) (b : ProfileBody), b.success = false →
        checkLoginStatus c (.ok st b) =
          { cache := Cache.cleared, navs := [], msgs := [],
            fetchCalls := 1 }) ∧
      checkLoginStatus c .exn =
        { cache := c, navs := [], msgs := [], fetchCalls := 1 }) := by
  constructor
  · intro h
    simp [checkLoginStatus, h]
  · intro h
    refine ⟨?_, ?_, ?_⟩
    · intro st b hb
      simp [checkLoginStatus, verifySession, h, hb]
    · intro st b hb
      simp [checkLoginStatus, verifySession, h, hb]
    · simp [checkLoginStatus, verifySession, h]

/-- Witness for C10 at concrete runs of all four cases. -/
theorem c10_entry_page_check_witness :
    (checkLoginStatus ⟨none, none⟩ FetchResult.exn).fetchCalls = 0 ∧
    (checkLoginStatus ⟨some "true", none⟩
        (.ok 200 ⟨true, "", ⟨"1", "A", "a@b.c", "t"⟩⟩)).navs = ["forum.html"] ∧
    (checkLoginStatus ⟨some "true", none⟩
        (.ok 200 ⟨false, "", ⟨"1", "A", "a@b.c", "t"⟩⟩)).cache = Cache.cleared ∧
    (checkLoginStatus ⟨some "true", none⟩ FetchResult.exn).cache =
      ⟨some "true", none⟩ := by
  have h0 := (c10_entry_page_check ⟨none, none⟩ FetchResult.exn).1
      (by decide)
  have h := (c10_entry_page_check ⟨some "true", none⟩ FetchResult.exn).2 rfl
  refine ⟨by rw [h0], ?_, ?_, by rw [h.2.2]⟩
  · rw [h.1 200 ⟨true, "", ⟨"1", "A", "a@b.c", "t"⟩⟩ rfl]
  · rw [h.2.1 200 ⟨false, "", ⟨"1", "A", "a@b.c", "t"⟩⟩ rfl]

/-- C1 counterexample: on the forum page, a guard run with the flag
set and a stale cached record, answered by a success body carrying a
fresh record, reaches the authorized outcome but leaves the stale
record in the cache — the returned record is not written. -/
theorem c1_guard_refresh_counterexample :
    ((forumCheckAuthentication
        ⟨some "true", some ⟨"1", "Old", "old@x.co", "t"⟩⟩
        (.ok 200 ⟨true, "", ⟨"1", "New", "new@x.co", "t"⟩⟩)).authorized
      = true) ∧
    ((forumCheckAuthentication
        ⟨some "true", some ⟨"1", "Old", "old@x.co", "t"⟩⟩
        (.ok 200 ⟨true, "", ⟨"1", "New", "new@x.co", "t"⟩⟩)).cache.user
      ≠ some ⟨"1", "New", "new@x.co", "t"⟩) := by
  decide

/-- C1 amended: on the forum page, a guard run with the flag set and a
success body reaches the authorized outcome and requests no
navigation, but leaves the whole cache unchanged: the guard does not
refresh the cached user record (only loadProfile on the profile page
rewrites it). -/
theorem c1_guard_auth_no_refresh (c : Cache) (st : Nat) (b : ProfileBody)
    (hl : c.isLoggedIn = some "true") (hs : b.success = true) :
    (forumCheckAuthentication c (.ok st b)).authorized = true ∧
    (forumCheckAuthentication c (.ok st b)).cache = c ∧
    (forumCheckAuthentication c (.ok st b)).navs = [] := by
  simp [forumCheckAuthentication, hl, hs]

/-- Witness for the amended C1 at a concrete run, including that
loadProfile is the place where the record does get refreshed. -/
theorem c1_guard_auth_no_refresh_witness :
    (forumCheckAuthentication ⟨some "true", none⟩
        (.ok 200 ⟨true, "", ⟨"1", "A", "a@b.c", "t"⟩⟩)).authorized = true ∧
    (forumCheckAuthentication ⟨some "true", none⟩
        (.ok 200 ⟨true, "", ⟨"1", "A", "a@b.c", "t"⟩⟩)).cache =
      ⟨some "true", none⟩ := by
  have h := c1_guard_auth_no_refresh ⟨some "true", none⟩ 200
      ⟨true, "", ⟨"1", "A", "a@b.c", "t"⟩⟩ rfl rfl
  exact ⟨h.1, h.2.1⟩

/-- C2 counterexample: on the profile page, a guard run with only the
cached flag set reports success while issuing zero profile fetches —
the cached flag alone lets the page be treated as authorized there. -/
theorem c2_guard_counterexample :
    (profileCheckAuthentication ⟨some "true", none⟩).authorized = true ∧
    (profileCheckAuthentication ⟨some "true", none⟩).fetchCalls = 0 := by
  decide

/-- C2 amended: on the forum page the guard reports success only when
the flag was set, one confirmation call was issued and it returned a
success body; on the profile page the guard reports success exactly
when the cached flag is set, with no network call (the server round
trip there happens only in the subsequent loadProfile). -/
theorem c2_guard_confirmation (c : Cache) (resp : FetchResult ProfileBody) :
    ((forumCheckAuthentication c resp).authorized = true →
      c.isLoggedIn = some "true" ∧
      (forumCheckAuthentication c resp).fetchCalls = 1 ∧
      ∃ (st : Nat) (b : ProfileBody),
        resp = .ok st b ∧ b.success = true) ∧
    ((profileCheckAuthentication c).authorized = true ↔
      c.isLoggedIn = some "true") := by
  constructor
  · intro h
    by_cases hl : c.isLoggedIn = some "true"
    · cases resp with
      | exn => simp [forumCheckAuthentication, hl] at h
      | ok st b =>
        cases hb : b.success with
        | false => simp [forumCheckAuthentication, hl, hb] at h
        | true =>
          exact ⟨hl, by simp [forumCheckAuthentication, hl, hb],
            st, b, rfl, hb⟩
    · simp [forumCheckAuthentication, hl] at h
  · constructor
    · intro h
      by_cases hl : c.isLoggedIn = some "true"
      · exact hl
      · simp [profileCheckAuthentication, hl] at h
    · intro hl
      simp [profileCheckAuthentication, hl]

/-- Witness for the amended C2 at a concrete authorized run of the
forum guard. -/
theorem c2_guard_confirmation_witness :
    (forumCheckAuthentication ⟨some "true", none⟩
        (.ok 200 ⟨true, "m", ⟨"1", "A", "a@b.c", "t"⟩⟩)).fetchCalls = 1 := by
  have h := (c2_guard_confirmation ⟨some "true", none⟩
      (.ok 200 ⟨true, "m", ⟨"1", "A", "a@b.c", "t"⟩⟩)).1 (by decide)
  exact h.2.1

/-- C8 counterexample: a response with HTTP status 401 whose body
reports success is classified as a success, not as session-invalid:
create-post takes the success path (form cleared, no delayed clear)
and loadProfile renders and caches the record. -/
theorem c8_classification_counterexample :
    classifyResponse SimpleBody.success
        (.ok 401 ⟨true, "ok"⟩) = Classification.ok ∧
    (handleCreatePost ⟨some "true", none⟩ "Valid title"
        "Valid content here" (.ok 401 ⟨true, "ok"⟩)).formCleared = true ∧
    (handleCreatePost ⟨some "true", none⟩ "Valid title"
        "Valid content here" (.ok 401 ⟨true, "ok"⟩)).clearDelayed = false ∧
    (loadProfile ⟨some "true", none⟩
        (.ok 401 ⟨true, "ok", ⟨"1", "A", "a@b.c", "t"⟩⟩)).clearDelayed
      = false ∧
    (loadProfile ⟨some "true", none⟩
        (.ok 401 ⟨true, "ok", ⟨"1", "A", "a@b.c", "t"⟩⟩)).renderedProfile
      = some ⟨"1", "A", "a@b.c", "t"⟩ := by
  decide

/-- C8 amended: a parsed response is classified as session-invalid
exactly when its body reports failure and its HTTP status is 401; in
particular the body success flag is tested before the status, so the
session-expired path of loadProfile and of a locally valid create-post
is taken exactly under that conjunction. -/
theorem c8_session_invalid_classification :
    (∀ (st : Nat) (b : SimpleBody),
      classifyResponse SimpleBody.success (.ok st b) =
          Classification.sessionInvalid ↔
        b.success = false ∧ st = 401) ∧
    (∀ (c : Cache) (st : Nat) (b : ProfileBody),
      (loadProfile c (.ok st b)).clearDelayed = true ↔
        b.success = false ∧ st = 401) ∧
    (∀ (c : Cache) (t cont : String) (st : Nat) (b : SimpleBody),
      titleRejected (jsTrim t) = false →
      contentRejected (jsTrim cont) = false →
      ((handleCreatePost c t cont (.ok st b)).clearDelayed = true ↔
        b.success = false ∧ st = 401)) := by
  refine ⟨?_, ?_, ?_⟩
  · intro st b
    cases hb : b.success <;> by_cases hst : st = 401 <;>
      simp [classifyResponse, hb, hst]
  · intro c st b
    cases hb : b.success <;> by_cases hst : st = 401 <;>
      simp [loadProfile, hb, hst]
  · intro c t cont st b ht hc
    cases hb : b.success <;> by_cases hst : st = 401 <;>
      simp [handleCreatePost, ht, hc, hb, hst]

/-- Witness for the amended C8 at a concrete 401 run with a failure
body, which does take the session-expired path. -/
theorem c8_session_invalid_classification_witness :
    (loadProfile ⟨some "true", none⟩
        (.ok 401 ⟨false, "Unauthorized", ⟨"0", "", "", ""⟩⟩)).clearDelayed
      = true := by
  exact (c8_session_invalid_classification.2.1 ⟨some "true", none⟩ 401
      ⟨false, "Unauthorized", ⟨"0", "", "", ""⟩⟩).mpr ⟨rfl, rfl⟩

end AcademiaTalk
